import Mathlib

/-!
Shallow embedding of the ChatbotComparison frontend (src/frontend/js).

Each definition mirrors one function of the JavaScript source:

* `APIClient.request`        — src/frontend/js/utils/api.js, `APIClient.request`
* `handleNewSession`         — src/frontend/js/states/UserSelectionState.js
* `selectSecondAgent`        — src/frontend/js/states/AISelectionState.js
* `processResponses`, `pollForResponses`, `handlePollError`
                             — src/frontend/js/states/ChatComparisonState.js,
                               body of the per-poll closure in
                               `sendMessageWithStreaming`
* `handleChatEvent`          — the submit / start-resolution / poll event
                               semantics of `handleMessageSubmit` and
                               `sendMessageWithStreaming`

JavaScript truthiness is modelled explicitly where the source relies on it
(a string is truthy iff non-empty; an absent field is falsy).
-/

/-! ## API gateway client (utils/api.js) -/

/-- The parsed JSON body of a backend response, reduced to the one field the
error path of `APIClient.request` reads: the optional `detail` string. -/
structure JsonBody where
  detail : Option String
  deriving DecidableEq

/-- An HTTP response as observed by `APIClient.request`: status code, status
text, and the result of `response.json()` (`none` when parsing fails, in
which case the error path substitutes `{}`). -/
structure HttpResponse where
  status : Nat
  statusText : String
  json : Option JsonBody
  deriving DecidableEq

namespace APIClient

/-- The generic error message template of `APIClient.request`:
``HTTP ${response.status}: ${response.statusText}``. -/
def genericHttpMessage (resp : HttpResponse) : String :=
  "HTTP " ++ toString resp.status ++ ": " ++ resp.statusText

/-- `response.ok`: status in the 2xx range. -/
def responseOk (status : Nat) : Prop := 200 ≤ status ∧ status ≤ 299

instance (status : Nat) : Decidable (responseOk status) := by
  unfold responseOk; infer_instance

/-- `APIClient.request` (api.js lines 43-63): on a 2xx response return the
parsed JSON body (`response.json()`); on a non-2xx response throw an error
whose message is `errorData.detail || genericHttpMessage` where `errorData`
is the parsed error body with `{}` substituted on parse failure.  The
`||` is JavaScript truthiness: an empty `detail` string falls through to
the generic message. -/
def request (resp : HttpResponse) : Except String JsonBody :=
  if responseOk resp.status then
    match resp.json with
    | some body => .ok body
    | none => .error "Unexpected end of JSON input"
  else
    let errorData : JsonBody := resp.json.getD ⟨none⟩
    match errorData.detail with
    | some d => if d = "" then .error (genericHttpMessage resp) else .error d
    | none => .error (genericHttpMessage resp)

end APIClient

/-! ## Session creation (states/UserSelectionState.js) -/

/-- JavaScript `String.prototype.trim`: strip leading and trailing
whitespace.  Modelled on the underlying character list by structural
recursion so that it evaluates inside the kernel. -/
def jsTrim (s : String) : String :=
  ⟨((s.data.dropWhile Char.isWhitespace).reverse.dropWhile Char.isWhitespace).reverse⟩

/-- The observable outcome of `handleNewSession`: either a local validation
error (no network call) or the `apiClient.createSession` network request
with the trimmed field values. -/
inductive NewSessionAction where
  | validationError (message : String)
  | createSessionRequest (name : String) (projectTitle : String)
  deriving DecidableEq

/-- `handleNewSession` (UserSelectionState.js lines 88-98): trim both form
fields; if either is empty show `'Please fill in all fields.'` and return
before any network call, otherwise issue `createSession(name, projectTitle)`
with the trimmed values. -/
def handleNewSession (nameField projectTitleField : String) : NewSessionAction :=
  let name := jsTrim nameField
  let projectTitle := jsTrim projectTitleField
  if name = "" ∨ projectTitle = "" then
    .validationError "Please fill in all fields."
  else
    .createSessionRequest name projectTitle

/-! ## Agent selection (states/AISelectionState.js) -/

/-- An agent catalog entry as consumed by the frontend. -/
structure AgentDescriptor where
  key : String
  display_name : String
  description : String
  input_price : Rat
  output_price : Rat
  deriving DecidableEq

/-- The backend response to the `select_second` action, reduced to the
fields `selectSecondAgent` reads.  `ready_for_conversation` is `none` when
the field is absent from the response. -/
structure SelectSecondResponse where
  success : Bool
  ready_for_conversation : Option Bool
  selected_agents : List String
  deriving DecidableEq

/-- The observable outcome of `selectSecondAgent`: either the pair is
finalized and `stateManager.onAISelectionComplete` is invoked with the
computed agent list, or `UIUtils.showError` is invoked. -/
inductive SelectSecondResult where
  | complete (selectedAgents : List AgentDescriptor)
  | showError (message : String)
  deriving DecidableEq

/-- `selectSecondAgent` (AISelectionState.js lines 155-183): when
`response.success && response.ready_for_conversation` (both truthy — an
absent or `false` ready flag fails the test), the finalized agent list is
`this.availableAgents.filter(agent => response.selected_agents.includes(agent.key))`
and the coordinator is notified; otherwise
`'Error selecting second agent'` is surfaced. -/
def selectSecondAgent (availableAgents : List AgentDescriptor)
    (response : SelectSecondResponse) : SelectSecondResult :=
  if response.success ∧ response.ready_for_conversation.getD false then
    .complete (availableAgents.filter
      (fun agent => response.selected_agents.contains agent.key))
  else
    .showError "Error selecting second agent"

/-! ## Dual-agent chat controller (states/ChatComparisonState.js) -/

/-- Response metadata as constructed or passed through by the chat
controller.  The timeout placeholder is
`{processing_time_seconds: 30, cost_usd: 0, error: true}` and the
start/poll-error placeholder is
`{processing_time_seconds: 0, cost_usd: 0, error: true}`; neither carries a
`display_name`. -/
structure ResponseMetadata where
  display_name : Option String
  processing_time_seconds : Rat
  cost_usd : Rat
  error : Bool
  deriving DecidableEq

/-- The state of one agent's outcome slot within a job: the placeholder
inserted by `createPlaceholderMessage` (`Pending`), the rendered response
after `replaceWithActualResponse` (`Success`), or the failure entry after
`handleResponseFailure` (`Failed`).  Server-side metadata for a success may
be absent from the poll payload, hence the `Option`. -/
inductive SlotOutcome where
  | Pending
  | Success (content : String) (metadata : Option ResponseMetadata)
  | Failed (reason : String) (metadata : ResponseMetadata)
  deriving DecidableEq

/-- The per-agent status indicator set through `UIUtils.updateAIStatus`. -/
inductive AIStatus where
  | ready
  | processing
  | error
  deriving DecidableEq

/-- One `getChatStatus` payload as read by the poll closure: the job-level
`status` string and the optional `responses` / `metadata` maps (absent maps
fail the JavaScript truthiness test `status.responses && status.metadata`). -/
structure ChatStatus where
  status : String
  responses : Option (List (String × String))
  metadata : Option (List (String × ResponseMetadata))
  deriving DecidableEq

/-- JavaScript truthiness of the map lookup `status.responses[key]`: the key
must be present and bound to a non-empty string. -/
def truthyString : Option String → Bool
  | some s => !(s == "")
  | none => false

/-- The mutable state owned by one job inside `sendMessageWithStreaming`:
the `responsesReceived` set (membership of `'ai-1'` / `'ai-2'`), the two
outcome slots, and the two status indicators. -/
structure JobState where
  received1 : Bool
  received2 : Bool
  slot1 : SlotOutcome
  slot2 : SlotOutcome
  status1 : AIStatus
  status2 : AIStatus
  deriving DecidableEq

/-- `responsesReceived.size`. -/
def receivedCount (s : JobState) : Nat :=
  (if s.received1 then 1 else 0) + (if s.received2 then 1 else 0)

/-- The hard wall-clock budget `maxWaitTime = 60000` ms. -/
def maxWaitTime : Nat := 60000

/-- The fixed poll delay `pollInterval = 200` ms. -/
def pollInterval : Nat := 200

/-- The placeholder metadata of `handleResponseTimeout`. -/
def timeoutMetadata : ResponseMetadata :=
  { display_name := none, processing_time_seconds := 30, cost_usd := 0, error := true }

/-- The placeholder metadata of `handleResponseError`. -/
def errorMetadata : ResponseMetadata :=
  { display_name := none, processing_time_seconds := 0, cost_usd := 0, error := true }

/-- `handleResponseTimeout` applied to the first slot: resolve it as a
`'Request timeout'` failure with the fixed placeholder metadata and set the
status indicator to error (`updateAIStatus(aiId, 'error', 'Timeout')`). -/
def handleResponseTimeout1 (s : JobState) : JobState :=
  { s with slot1 := .Failed "Request timeout" timeoutMetadata, status1 := .error }

/-- `handleResponseTimeout` applied to the second slot. -/
def handleResponseTimeout2 (s : JobState) : JobState :=
  { s with slot2 := .Failed "Request timeout" timeoutMetadata, status2 := .error }

/-- `handleResponseError` applied to the first slot: resolve it as a
`` `Error: ${error.message}` `` failure with zeroed placeholder metadata and
set the status indicator to error. -/
def handleResponseError1 (msg : String) (s : JobState) : JobState :=
  { s with slot1 := .Failed ("Error: " ++ msg) errorMetadata, status1 := .error }

/-- `handleResponseError` applied to the second slot. -/
def handleResponseError2 (msg : String) (s : JobState) : JobState :=
  { s with slot2 := .Failed ("Error: " ++ msg) errorMetadata, status2 := .error }

/-- The `'ai-1'` check of the poll closure (ChatComparisonState.js lines
170-182): if a first agent is selected, its key is bound to a truthy
response, and `'ai-1'` is not yet in `responsesReceived`, mark it received,
replace the placeholder with the rendered response plus its metadata
(`replaceWithActualResponse`), and set the indicator to ready. -/
def resolveSlot1 (agents : List AgentDescriptor)
    (resps : List (String × String)) (metas : List (String × ResponseMetadata))
    (s : JobState) : JobState :=
  match agents[0]? with
  | some a =>
    if truthyString (resps.lookup a.key) ∧ ¬s.received1 then
      { s with received1 := true
             , slot1 := .Success ((resps.lookup a.key).getD "") (metas.lookup a.key)
             , status1 := .ready }
    else s
  | none => s

/-- The `'ai-2'` check of the poll closure (lines 185-197). -/
def resolveSlot2 (agents : List AgentDescriptor)
    (resps : List (String × String)) (metas : List (String × ResponseMetadata))
    (s : JobState) : JobState :=
  match agents[1]? with
  | some a =>
    if truthyString (resps.lookup a.key) ∧ ¬s.received2 then
      { s with received2 := true
             , slot2 := .Success ((resps.lookup a.key).getD "") (metas.lookup a.key)
             , status2 := .ready }
    else s
  | none => s

/-- Both per-agent checks, guarded by `status.responses && status.metadata`. -/
def processResponses (agents : List AgentDescriptor) (st : ChatStatus)
    (s : JobState) : JobState :=
  match st.responses, st.metadata with
  | some resps, some metas => resolveSlot2 agents resps metas (resolveSlot1 agents resps metas s)
  | _, _ => s

/-- What the poll closure does after processing one payload: schedule the
next poll via `setTimeout(pollForResponses, pollInterval)`, or fall through
(ending the loop). -/
inductive PollAction where
  | scheduleNext (delayMs : Nat)
  | stop
  deriving DecidableEq

/-- The timeout/completion fallback of the poll closure
(ChatComparisonState.js lines 205-214): each slot not in
`responsesReceived` is resolved through `handleResponseTimeout`. -/
def pollTimeoutResolve (s : JobState) : JobState :=
  let s2 := if ¬s.received1 then handleResponseTimeout1 s else s
  if ¬s2.received2 then handleResponseTimeout2 s2 else s2

/-- One successful iteration of the poll closure `pollForResponses`
(ChatComparisonState.js lines 157-226): process the payload's response
maps, then either schedule the next poll via
`setTimeout(pollForResponses, pollInterval)` (fewer than two slots received
AND job status not `'completed'` AND elapsed time under `maxWaitTime`) or,
if slots remain unreceived, resolve each of them through
`handleResponseTimeout` and end the loop.  `elapsedMs` is
`Date.now() - startTime` at the continuation check. -/
def pollForResponses (agents : List AgentDescriptor) (st : ChatStatus)
    (elapsedMs : Nat) (s : JobState) : JobState × PollAction :=
  let s1 := processResponses agents st s
  if receivedCount s1 < 2 ∧ st.status ≠ "completed" ∧ elapsedMs < maxWaitTime then
    (s1, .scheduleNext pollInterval)
  else if receivedCount s1 < 2 then
    (pollTimeoutResolve s1, .stop)
  else
    (s1, .stop)

/-- The `catch` of the poll closure (lines 216-225): a failed
`getChatStatus` request resolves every slot not in `responsesReceived`
through `handleResponseError`; no further poll is scheduled. -/
def handlePollError (msg : String) (s : JobState) : JobState :=
  let s1 := if ¬s.received1 then handleResponseError1 msg s else s
  if ¬s1.received2 then handleResponseError2 msg s1 else s1

/-- An event delivered to one job's poll loop: a resolved `getChatStatus`
payload (with the elapsed time observed at the continuation check) or a
rejected one. -/
inductive PollEvent where
  | result (st : ChatStatus) (elapsedMs : Nat)
  | transportError (msg : String)

/-- Run the poll loop over a sequence of incoming poll events.  Subsequent
events are consumed only while the previous iteration scheduled another
poll; both the timeout branch and the `catch` end the loop, after which no
later poll result exists for this job. -/
def runPollLoop (agents : List AgentDescriptor) :
    List PollEvent → JobState → JobState
  | [], s => s
  | .result st elapsedMs :: rest, s =>
    match pollForResponses agents st elapsedMs s with
    | (s', .scheduleNext _) => runPollLoop agents rest s'
    | (s', .stop) => s'
  | .transportError msg :: _, s => handlePollError msg s

/-- The lifecycle phase of one job created by a submit: its
`startChatMessage` call is in flight (`awaitingStart`), its poll loop is
active (`polling`), or it will never be touched again (`done`). -/
inductive JobPhase where
  | awaitingStart
  | polling
  | done
  deriving DecidableEq

/-- One job record held by the controller machine. -/
structure ChatJob where
  state : JobState
  phase : JobPhase
  deriving DecidableEq

/-- The job state right after an accepted submit: placeholders inserted into
both columns (`createPlaceholderMessage`), both indicators set to
`'processing'` (`updateAIStatus`), `responsesReceived` empty. -/
def initialJobState : JobState :=
  { received1 := false, received2 := false
  , slot1 := .Pending, slot2 := .Pending
  , status1 := .processing, status2 := .processing }

/-- The controller state of `ChatComparisonState`: the `isProcessing`
re-entrancy flag (which disables the submit control via `updateSendButton`)
and the jobs created so far, in creation order. -/
structure ControllerState where
  isProcessing : Bool
  jobs : List ChatJob
  deriving DecidableEq

/-- The controller before any submission. -/
def initialControllerState : ControllerState :=
  { isProcessing := false, jobs := [] }

/-- Asynchronous events observed by the chat controller.  `submit` is the
form submission; `startResolved i` / `startRejected i` are the settlement
of job `i`'s `startChatMessage` promise — at which point the unawaited
`pollForResponses()` kick-off (or the `catch`) runs, `sendMessageWithStreaming`
resolves, and `handleMessageSubmit`'s `finally` clears `isProcessing`
before any `getChatStatus` round-trip can complete; `pollResult` /
`pollError` are the settlement of one `getChatStatus` call of job `i`'s
poll loop. -/
inductive ChatEvent where
  | submit (message : String)
  | startResolved (i : Nat)
  | startRejected (i : Nat) (msg : String)
  | pollResult (i : Nat) (st : ChatStatus) (elapsedMs : Nat)
  | pollError (i : Nat) (msg : String)

/-- The job state produced by the outer `catch` of
`sendMessageWithStreaming` (lines 231-236): `handleResponseError` on both
placeholders, so both slots fail with zeroed placeholder metadata and both
indicators show error; no poll loop is started. -/
def startFailedJobState (msg : String) : JobState :=
  { received1 := false, received2 := false
  , slot1 := .Failed ("Error: " ++ msg) errorMetadata
  , slot2 := .Failed ("Error: " ++ msg) errorMetadata
  , status1 := .error, status2 := .error }

/-- One controller transition.  `handleMessageSubmit` (lines 94-131) returns
unchanged when `isProcessing` is set or the trimmed message is empty;
otherwise it sets `isProcessing`, inserts the user message and placeholders,
and awaits `sendMessageWithStreaming`, whose `startChatMessage` settlement
is delivered later as `startResolved`/`startRejected` (both clear
`isProcessing` through the `finally`).  Poll settlements act on a `polling`
job through `pollForResponses` / `handlePollError` and keep the loop alive
exactly when another poll was scheduled. -/
def handleChatEvent (agents : List AgentDescriptor) (s : ControllerState) :
    ChatEvent → ControllerState
  | .submit message =>
    if s.isProcessing ∨ jsTrim message = "" then s
    else { isProcessing := true
         , jobs := s.jobs ++ [{ state := initialJobState, phase := .awaitingStart }] }
  | .startResolved i =>
    match s.jobs[i]? with
    | some j =>
      if j.phase = .awaitingStart then
        { isProcessing := false
        , jobs := s.jobs.set i { state := j.state, phase := .polling } }
      else s
    | none => s
  | .startRejected i msg =>
    match s.jobs[i]? with
    | some j =>
      if j.phase = .awaitingStart then
        { isProcessing := false
        , jobs := s.jobs.set i { state := startFailedJobState msg, phase := .done } }
      else s
    | none => s
  | .pollResult i st elapsedMs =>
    match s.jobs[i]? with
    | some j =>
      if j.phase = .polling then
        match pollForResponses agents st elapsedMs j.state with
        | (s', .scheduleNext _) =>
          { s with jobs := s.jobs.set i { state := s', phase := .polling } }
        | (s', .stop) =>
          { s with jobs := s.jobs.set i { state := s', phase := .done } }
      else s
    | none => s
  | .pollError i msg =>
    match s.jobs[i]? with
    | some j =>
      if j.phase = .polling then
        { s with jobs := s.jobs.set i { state := handlePollError msg j.state, phase := .done } }
      else s
    | none => s

/-- Run the controller over a sequence of events. -/
def runChat (agents : List AgentDescriptor) (events : List ChatEvent) :
    ControllerState :=
  events.foldl (handleChatEvent agents) initialControllerState

/-- A concrete two-agent pair used for concrete executions. -/
def sampleAgents : List AgentDescriptor :=
  [ { key := "gpt", display_name := "GPT", description := "a", input_price := 1, output_price := 2 }
  , { key := "claude", display_name := "Claude", description := "b", input_price := 1, output_price := 2 } ]

/-! ## Theorems -/

/-- C9: a session-creation submission with an empty trimmed name or project
title fails locally with the validation error and performs no network call;
the backend `createSession` request is issued, with the trimmed fields,
exactly when both trimmed fields are non-empty. -/
theorem handleNewSession_validation (nameField projectTitleField : String) :
    ((jsTrim nameField = "" ∨ jsTrim projectTitleField = "") →
      handleNewSession nameField projectTitleField =
        .validationError "Please fill in all fields.")
    ∧ ((jsTrim nameField ≠ "" ∧ jsTrim projectTitleField ≠ "") →
      handleNewSession nameField projectTitleField =
        .createSessionRequest (jsTrim nameField) (jsTrim projectTitleField))
    ∧ (∀ n p, handleNewSession nameField projectTitleField = .createSessionRequest n p →
        jsTrim nameField ≠ "" ∧ jsTrim projectTitleField ≠ "") := by
  unfold handleNewSession
  by_cases h : jsTrim nameField = "" ∨ jsTrim projectTitleField = ""
  · rw [if_pos h]
    refine ⟨fun _ => rfl, fun hne => absurd h (by tauto), fun n p he => by cases he⟩
  · rw [if_neg h]
    push_neg at h
    exact ⟨fun hor => absurd hor (by tauto), fun _ => rfl, fun n p _ => h⟩

/-- C9 witness: a blank name is rejected locally, and non-empty trimmed
fields produce the `createSession` request. -/
theorem handleNewSession_validation_witness :
    handleNewSession "   " "Proj" = .validationError "Please fill in all fields."
    ∧ handleNewSession " Alice " "Proj" = .createSessionRequest "Alice" "Proj" := by
  constructor
  · exact (handleNewSession_validation "   " "Proj").1 (Or.inl (by decide))
  · have h := (handleNewSession_validation " Alice " "Proj").2.1 ⟨by decide, by decide⟩
    simpa using h

/-- C7: the second-agent selection finalizes the pair and notifies the
coordinator exactly when the backend response carries a true `success` flag
and an explicit true `ready_for_conversation` flag; otherwise (ready flag
absent or false, or no success) no transition occurs and the error message
is surfaced instead. -/
theorem selectSecondAgent_ready_gate (availableAgents : List AgentDescriptor)
    (response : SelectSecondResponse) :
    ((∃ sel, selectSecondAgent availableAgents response = .complete sel) ↔
      (response.success = true ∧ response.ready_for_conversation = some true))
    ∧ (¬(response.success = true ∧ response.ready_for_conversation = some true) →
      selectSecondAgent availableAgents response =
        .showError "Error selecting second agent") := by
  have hready : (response.ready_for_conversation.getD false = true) ↔
      response.ready_for_conversation = some true := by
    cases response.ready_for_conversation with
    | none => simp
    | some b => cases b <;> simp
  unfold selectSecondAgent
  by_cases hc : (response.success : Prop) ∧ (response.ready_for_conversation.getD false : Prop)
  · rw [if_pos hc]
    refine ⟨⟨fun _ => ⟨hc.1, hready.mp hc.2⟩, fun _ => ⟨_, rfl⟩⟩, fun hn => absurd ⟨hc.1, hready.mp hc.2⟩ hn⟩
  · rw [if_neg hc]
    refine ⟨⟨?_, ?_⟩, fun _ => rfl⟩
    · rintro ⟨sel, hsel⟩
      cases hsel
    · intro hsr
      exact absurd ⟨hsr.1, hready.mpr hsr.2⟩ hc

/-- C7 witness: a ready response finalizes the pair; a response without the
ready flag surfaces the error. -/
theorem selectSecondAgent_ready_gate_witness :
    (∃ sel, selectSecondAgent sampleAgents ⟨true, some true, ["gpt", "claude"]⟩ = .complete sel)
    ∧ selectSecondAgent sampleAgents ⟨true, none, ["gpt", "claude"]⟩ =
        .showError "Error selecting second agent" :=
  ⟨(selectSecondAgent_ready_gate sampleAgents ⟨true, some true, ["gpt", "claude"]⟩).1.mpr
      ⟨rfl, rfl⟩,
    (selectSecondAgent_ready_gate sampleAgents ⟨true, none, ["gpt", "claude"]⟩).2
      (by simp)⟩

/-- C8 (as stated, refuted here): the claim requires the raised error
message to be the server-provided `detail` field whenever the error body
contains one; at status 400 with body `{detail: ""}` the body contains a
`detail` field, yet the code raises the generic `HTTP 400: Bad Request`
message rather than the provided (empty) detail, because `errorData.detail
|| ...` tests JavaScript truthiness, not presence. -/
theorem request_empty_detail_counterexample :
    (⟨400, "Bad Request", some ⟨some ""⟩⟩ : HttpResponse).json = some ⟨some ""⟩
    ∧ APIClient.request ⟨400, "Bad Request", some ⟨some ""⟩⟩ =
        .error "HTTP 400: Bad Request"
    ∧ "HTTP 400: Bad Request" ≠ "" :=
  ⟨rfl, rfl, by decide⟩

/-- C8 (amended): a 2xx response yields the parsed JSON body; a non-2xx
response raises an error whose message is the server-provided `detail`
field when the error body contains a non-empty one, and otherwise (detail
absent, empty, or body unparseable) the generic message beginning with
`HTTP <status>`. -/
theorem request_error_message_amended (resp : HttpResponse) :
    (∀ body, APIClient.responseOk resp.status → resp.json = some body →
      APIClient.request resp = .ok body)
    ∧ (¬APIClient.responseOk resp.status →
        (∀ d, resp.json = some ⟨some d⟩ → d ≠ "" → APIClient.request resp = .error d)
        ∧ ((∀ d, resp.json = some ⟨some d⟩ → d = "") →
            APIClient.request resp = .error (APIClient.genericHttpMessage resp)
            ∧ ∃ rest, APIClient.genericHttpMessage resp =
                "HTTP " ++ toString resp.status ++ rest)) := by
  constructor
  · intro body hok hjson
    unfold APIClient.request
    rw [if_pos hok, hjson]
  · intro hnot
    constructor
    · intro d hjson hne
      unfold APIClient.request
      rw [if_neg hnot, hjson]
      simp [hne]
    · intro hempty
      constructor
      · unfold APIClient.request
        rw [if_neg hnot]
        match hj : resp.json with
        | none => simp
        | some ⟨none⟩ => simp
        | some ⟨some d⟩ =>
          have : d = "" := hempty d hj
          simp [this]
      · refine ⟨": " ++ resp.statusText, ?_⟩
        unfold APIClient.genericHttpMessage
        rw [String.append_assoc]

/-- C8 witness for the amended theorem: a non-empty detail is surfaced
verbatim, and a missing detail yields the generic message. -/
theorem request_error_message_amended_witness :
    ¬APIClient.responseOk 500
    ∧ APIClient.request ⟨500, "Internal Server Error", some ⟨some "boom"⟩⟩ = .error "boom"
    ∧ APIClient.request ⟨404, "Not Found", none⟩ = .error "HTTP 404: Not Found" := by
  refine ⟨by decide, ?_, ?_⟩
  · exact ((request_error_message_amended ⟨500, "Internal Server Error", some ⟨some "boom"⟩⟩).2
      (by decide)).1 "boom" rfl (by decide)
  · have h := ((request_error_message_amended ⟨404, "Not Found", none⟩).2 (by decide)).2
      (fun d hd => by cases hd)
    simpa [APIClient.genericHttpMessage] using h.1

/-- Helper: a finalized selection equals the catalog filtered by membership
of each agent key in the server's `selected_agents` list. -/
theorem selectSecondAgent_complete_eq (availableAgents : List AgentDescriptor)
    (response : SelectSecondResponse) (sel : List AgentDescriptor)
    (hsel : selectSecondAgent availableAgents response = .complete sel) :
    sel = availableAgents.filter
      (fun agent => response.selected_agents.contains agent.key) := by
  unfold selectSecondAgent at hsel
  by_cases hc : (response.success : Prop) ∧ (response.ready_for_conversation.getD false : Prop)
  · rw [if_pos hc] at hsel
    exact (SelectSecondResult.complete.injEq _ _ ▸ hsel).symm
  · rw [if_neg hc] at hsel
    cases hsel

/-- C6: a finalized agent list never contains two identical keys: whenever
the catalog offered for slot one has pairwise-distinct keys (each key is
unique within a catalog), the list handed to the coordinator has
pairwise-distinct keys as well, so the finalized pair cannot consist of two
identical keys. -/
theorem selectSecondAgent_distinct_keys (availableAgents : List AgentDescriptor)
    (response : SelectSecondResponse) (sel : List AgentDescriptor)
    (hnodup : (availableAgents.map AgentDescriptor.key).Nodup)
    (hsel : selectSecondAgent availableAgents response = .complete sel) :
    (sel.map AgentDescriptor.key).Nodup
    ∧ sel.Pairwise (fun a b => a.key ≠ b.key) := by
  have heq := selectSecondAgent_complete_eq availableAgents response sel hsel
  have hsub : sel.Sublist availableAgents := heq ▸ List.filter_sublist _
  have hmapsub : (sel.map AgentDescriptor.key).Sublist
      (availableAgents.map AgentDescriptor.key) := hsub.map _
  have hnd : (sel.map AgentDescriptor.key).Nodup := hnodup.sublist hmapsub
  exact ⟨hnd, (List.pairwise_map.mp hnd)⟩

/-- C6 witness: with a duplicate-free catalog and a ready server response
naming both keys, the finalized list has pairwise-distinct keys. -/
theorem selectSecondAgent_distinct_keys_witness :
    (sampleAgents.map AgentDescriptor.key).Nodup
    ∧ ((sampleAgents.filter
        (fun agent => ["gpt", "claude"].contains agent.key)).map AgentDescriptor.key).Nodup := by
  refine ⟨by decide, ?_⟩
  exact (selectSecondAgent_distinct_keys sampleAgents ⟨true, some true, ["gpt", "claude"]⟩
    _ (by decide) rfl).1

/-- C10: a finalized pair is computed by filtering the full first-slot
catalog, in catalog order, by membership of each agent key in the
server-returned `selected_agents` list: the result is a sublist of the
catalog (so the column order of the pair equals the catalog order of the
keys), membership is characterized by key membership, and any ready
response whose `selected_agents` has the same members — in any order —
produces the same finalized list. -/
theorem selectSecondAgent_pair_order (availableAgents : List AgentDescriptor)
    (response : SelectSecondResponse) (sel : List AgentDescriptor)
    (hsel : selectSecondAgent availableAgents response = .complete sel) :
    sel = availableAgents.filter
      (fun agent => response.selected_agents.contains agent.key)
    ∧ sel.Sublist availableAgents
    ∧ (∀ a, a ∈ sel ↔ a ∈ availableAgents ∧ a.key ∈ response.selected_agents)
    ∧ (∀ response' : SelectSecondResponse, response'.success = true →
        response'.ready_for_conversation = some true →
        (∀ k, k ∈ response'.selected_agents ↔ k ∈ response.selected_agents) →
        selectSecondAgent availableAgents response' = .complete sel) := by
  have heq := selectSecondAgent_complete_eq availableAgents response sel hsel
  refine ⟨heq, heq ▸ List.filter_sublist _, ?_, ?_⟩
  · intro a
    rw [heq, List.mem_filter]
    simp [List.elem_iff]
  · intro response' hsucc hready hmem
    unfold selectSecondAgent
    rw [if_pos ⟨by rw [hsucc], by rw [hready]; exact rfl⟩]
    have hfilter : availableAgents.filter
        (fun agent => response'.selected_agents.contains agent.key) =
        availableAgents.filter
        (fun agent => response.selected_agents.contains agent.key) := by
      apply List.filter_congr
      intro a _
      have h : (response'.selected_agents.contains a.key = true) ↔
          (response.selected_agents.contains a.key = true) := by
        simp only [List.elem_iff]
        exact hmem a.key
      exact Bool.eq_iff_iff.mpr h
    rw [hfilter, ← heq]

/-- C10 witness: the server listing the keys in reverse order still yields
the pair in catalog order. -/
theorem selectSecondAgent_pair_order_witness :
    selectSecondAgent sampleAgents ⟨true, some true, ["claude", "gpt"]⟩ =
      .complete sampleAgents
    ∧ List.Sublist sampleAgents sampleAgents := by
  have h := selectSecondAgent_pair_order sampleAgents ⟨true, some true, ["claude", "gpt"]⟩
    (sampleAgents.filter (fun agent => (["claude", "gpt"] : List String).contains agent.key))
    rfl
  refine ⟨?_, h.2.1.trans ?_⟩
  · have := h.2.2.2 ⟨true, some true, ["claude", "gpt"]⟩ rfl rfl (fun k => Iff.rfl)
    simpa using this
  · simp


/-- Helper: the `'ai-1'` check never touches the second slot's fields. -/
theorem resolveSlot1_preserves2 (agents : List AgentDescriptor)
    (resps : List (String × String)) (metas : List (String × ResponseMetadata))
    (s : JobState) :
    (resolveSlot1 agents resps metas s).received2 = s.received2
    ∧ (resolveSlot1 agents resps metas s).slot2 = s.slot2
    ∧ (resolveSlot1 agents resps metas s).status2 = s.status2 := by
  unfold resolveSlot1
  cases agents[0]? with
  | none => exact ⟨rfl, rfl, rfl⟩
  | some a =>
    dsimp only
    split <;> exact ⟨rfl, rfl, rfl⟩

/-- Helper: the `'ai-2'` check never touches the first slot's fields. -/
theorem resolveSlot2_preserves1 (agents : List AgentDescriptor)
    (resps : List (String × String)) (metas : List (String × ResponseMetadata))
    (s : JobState) :
    (resolveSlot2 agents resps metas s).received1 = s.received1
    ∧ (resolveSlot2 agents resps metas s).slot1 = s.slot1
    ∧ (resolveSlot2 agents resps metas s).status1 = s.status1 := by
  unfold resolveSlot2
  cases agents[1]? with
  | none => exact ⟨rfl, rfl, rfl⟩
  | some a =>
    dsimp only
    split <;> exact ⟨rfl, rfl, rfl⟩

/-- Helper: an `'ai-1'` already in `responsesReceived` is skipped. -/
theorem resolveSlot1_of_received (agents : List AgentDescriptor)
    (resps : List (String × String)) (metas : List (String × ResponseMetadata))
    (s : JobState) (h : s.received1 = true) :
    resolveSlot1 agents resps metas s = s := by
  unfold resolveSlot1
  cases agents[0]? with
  | none => rfl
  | some a =>
    dsimp only
    rw [if_neg]
    intro hc
    exact hc.2 h

/-- Helper: an `'ai-2'` already in `responsesReceived` is skipped. -/
theorem resolveSlot2_of_received (agents : List AgentDescriptor)
    (resps : List (String × String)) (metas : List (String × ResponseMetadata))
    (s : JobState) (h : s.received2 = true) :
    resolveSlot2 agents resps metas s = s := by
  unfold resolveSlot2
  cases agents[1]? with
  | none => rfl
  | some a =>
    dsimp only
    rw [if_neg]
    intro hc
    exact hc.2 h

/-- Helper: processing a payload leaves a received first slot untouched. -/
theorem processResponses_of_received1 (agents : List AgentDescriptor)
    (st : ChatStatus) (s : JobState) (h : s.received1 = true) :
    (processResponses agents st s).received1 = true
    ∧ (processResponses agents st s).slot1 = s.slot1
    ∧ (processResponses agents st s).status1 = s.status1 := by
  unfold processResponses
  cases hr : st.responses with
  | none => exact ⟨h, rfl, rfl⟩
  | some resps =>
    cases hm : st.metadata with
    | none => exact ⟨h, rfl, rfl⟩
    | some metas =>
      dsimp only
      rw [resolveSlot1_of_received agents resps metas s h]
      obtain ⟨h1, h2, h3⟩ := resolveSlot2_preserves1 agents resps metas s
      exact ⟨h1.trans h, h2, h3⟩

/-- Helper: processing a payload leaves a received second slot untouched. -/
theorem processResponses_of_received2 (agents : List AgentDescriptor)
    (st : ChatStatus) (s : JobState) (h : s.received2 = true) :
    (processResponses agents st s).received2 = true
    ∧ (processResponses agents st s).slot2 = s.slot2
    ∧ (processResponses agents st s).status2 = s.status2 := by
  unfold processResponses
  cases hr : st.responses with
  | none => exact ⟨h, rfl, rfl⟩
  | some resps =>
    cases hm : st.metadata with
    | none => exact ⟨h, rfl, rfl⟩
    | some metas =>
      dsimp only
      obtain ⟨h1, h2, h3⟩ := resolveSlot1_preserves2 agents resps metas s
      rw [resolveSlot2_of_received agents resps metas _ (h1.trans h)]
      exact ⟨h1.trans h, h2, h3⟩


/-- Helper: the timeout fallback skips a received first slot. -/
theorem pollTimeoutResolve_of_received1 (s : JobState) (h : s.received1 = true) :
    (pollTimeoutResolve s).received1 = true
    ∧ (pollTimeoutResolve s).slot1 = s.slot1
    ∧ (pollTimeoutResolve s).status1 = s.status1 := by
  cases h1 : s.received1 <;> cases h2 : s.received2 <;>
    simp_all [pollTimeoutResolve, handleResponseTimeout1, handleResponseTimeout2]

/-- Helper: the timeout fallback skips a received second slot. -/
theorem pollTimeoutResolve_of_received2 (s : JobState) (h : s.received2 = true) :
    (pollTimeoutResolve s).received2 = true
    ∧ (pollTimeoutResolve s).slot2 = s.slot2
    ∧ (pollTimeoutResolve s).status2 = s.status2 := by
  cases h1 : s.received1 <;> cases h2 : s.received2 <;>
    simp_all [pollTimeoutResolve, handleResponseTimeout1, handleResponseTimeout2]

/-- Helper: the timeout fallback resolves an unreceived first slot as the
fixed `'Request timeout'` failure with error status. -/
theorem pollTimeoutResolve_slot1_failed (s : JobState) (h : s.received1 = false) :
    (pollTimeoutResolve s).slot1 = .Failed "Request timeout" timeoutMetadata
    ∧ (pollTimeoutResolve s).status1 = .error := by
  cases h1 : s.received1 <;> cases h2 : s.received2 <;>
    simp_all [pollTimeoutResolve, handleResponseTimeout1, handleResponseTimeout2]

/-- Helper: the timeout fallback resolves an unreceived second slot as the
fixed `'Request timeout'` failure with error status. -/
theorem pollTimeoutResolve_slot2_failed (s : JobState) (h : s.received2 = false) :
    (pollTimeoutResolve s).slot2 = .Failed "Request timeout" timeoutMetadata
    ∧ (pollTimeoutResolve s).status2 = .error := by
  cases h1 : s.received1 <;> cases h2 : s.received2 <;>
    simp_all [pollTimeoutResolve, handleResponseTimeout1, handleResponseTimeout2]

/-- Helper: the poll-error handler leaves a received first slot untouched. -/
theorem handlePollError_of_received1 (msg : String) (s : JobState)
    (h : s.received1 = true) :
    (handlePollError msg s).received1 = true
    ∧ (handlePollError msg s).slot1 = s.slot1
    ∧ (handlePollError msg s).status1 = s.status1 := by
  cases h1 : s.received1 <;> cases h2 : s.received2 <;>
    simp_all [handlePollError, handleResponseError1, handleResponseError2]

/-- Helper: the poll-error handler leaves a received second slot untouched. -/
theorem handlePollError_of_received2 (msg : String) (s : JobState)
    (h : s.received2 = true) :
    (handlePollError msg s).received2 = true
    ∧ (handlePollError msg s).slot2 = s.slot2
    ∧ (handlePollError msg s).status2 = s.status2 := by
  cases h1 : s.received1 <;> cases h2 : s.received2 <;>
    simp_all [handlePollError, handleResponseError1, handleResponseError2]

/-- Helper: one poll iteration leaves a received first slot untouched. -/
theorem pollForResponses_of_received1 (agents : List AgentDescriptor)
    (st : ChatStatus) (elapsedMs : Nat) (s : JobState) (h : s.received1 = true) :
    (pollForResponses agents st elapsedMs s).1.received1 = true
    ∧ (pollForResponses agents st elapsedMs s).1.slot1 = s.slot1
    ∧ (pollForResponses agents st elapsedMs s).1.status1 = s.status1 := by
  obtain ⟨h1, h2, h3⟩ := processResponses_of_received1 agents st s h
  unfold pollForResponses
  dsimp only
  split
  · exact ⟨h1, h2, h3⟩
  · split
    · obtain ⟨g1, g2, g3⟩ := pollTimeoutResolve_of_received1 _ h1
      exact ⟨g1, g2.trans h2, g3.trans h3⟩
    · exact ⟨h1, h2, h3⟩

/-- Helper: one poll iteration leaves a received second slot untouched. -/
theorem pollForResponses_of_received2 (agents : List AgentDescriptor)
    (st : ChatStatus) (elapsedMs : Nat) (s : JobState) (h : s.received2 = true) :
    (pollForResponses agents st elapsedMs s).1.received2 = true
    ∧ (pollForResponses agents st elapsedMs s).1.slot2 = s.slot2
    ∧ (pollForResponses agents st elapsedMs s).1.status2 = s.status2 := by
  obtain ⟨h1, h2, h3⟩ := processResponses_of_received2 agents st s h
  unfold pollForResponses
  dsimp only
  split
  · exact ⟨h1, h2, h3⟩
  · split
    · obtain ⟨g1, g2, g3⟩ := pollTimeoutResolve_of_received2 _ h1
      exact ⟨g1, g2.trans h2, g3.trans h3⟩
    · exact ⟨h1, h2, h3⟩

/-- Helper: the whole remaining poll loop leaves a received first slot
untouched. -/
theorem runPollLoop_of_received1 (agents : List AgentDescriptor)
    (events : List PollEvent) : ∀ s : JobState, s.received1 = true →
    (runPollLoop agents events s).received1 = true
    ∧ (runPollLoop agents events s).slot1 = s.slot1
    ∧ (runPollLoop agents events s).status1 = s.status1 := by
  induction events with
  | nil => exact fun s h => ⟨h, rfl, rfl⟩
  | cons e rest ih =>
    intro s h
    cases e with
    | result st elapsedMs =>
      obtain ⟨h1, h2, h3⟩ := pollForResponses_of_received1 agents st elapsedMs s h
      unfold runPollLoop
      cases hpoll : pollForResponses agents st elapsedMs s with
      | mk s' act =>
        rw [hpoll] at h1 h2 h3
        cases act with
        | scheduleNext d =>
          dsimp only
          obtain ⟨g1, g2, g3⟩ := ih s' h1
          exact ⟨g1, g2.trans h2, g3.trans h3⟩
        | stop => exact ⟨h1, h2, h3⟩
    | transportError msg =>
      exact handlePollError_of_received1 msg s h

/-- Helper: the whole remaining poll loop leaves a received second slot
untouched. -/
theorem runPollLoop_of_received2 (agents : List AgentDescriptor)
    (events : List PollEvent) : ∀ s : JobState, s.received2 = true →
    (runPollLoop agents events s).received2 = true
    ∧ (runPollLoop agents events s).slot2 = s.slot2
    ∧ (runPollLoop agents events s).status2 = s.status2 := by
  induction events with
  | nil => exact fun s h => ⟨h, rfl, rfl⟩
  | cons e rest ih =>
    intro s h
    cases e with
    | result st elapsedMs =>
      obtain ⟨h1, h2, h3⟩ := pollForResponses_of_received2 agents st elapsedMs s h
      unfold runPollLoop
      cases hpoll : pollForResponses agents st elapsedMs s with
      | mk s' act =>
        rw [hpoll] at h1 h2 h3
        cases act with
        | scheduleNext d =>
          dsimp only
          obtain ⟨g1, g2, g3⟩ := ih s' h1
          exact ⟨g1, g2.trans h2, g3.trans h3⟩
        | stop => exact ⟨h1, h2, h3⟩
    | transportError msg =>
      exact handlePollError_of_received2 msg s h

/-- Helper: if the `'ai-1'` check changed the first slot, it marked it
received and resolved it as a success. -/
theorem resolveSlot1_changed (agents : List AgentDescriptor)
    (resps : List (String × String)) (metas : List (String × ResponseMetadata))
    (s : JobState)
    (h : (resolveSlot1 agents resps metas s).slot1 ≠ s.slot1) :
    (resolveSlot1 agents resps metas s).received1 = true
    ∧ ∃ c m, (resolveSlot1 agents resps metas s).slot1 = .Success c m := by
  unfold resolveSlot1 at h ⊢
  cases hA : agents[0]? with
  | none =>
    rw [hA] at h
    exact absurd rfl h
  | some a =>
    rw [hA] at h
    dsimp only at h ⊢
    by_cases hc : truthyString (resps.lookup a.key) = true ∧ ¬s.received1 = true
    · rw [if_pos hc]
      exact ⟨rfl, _, _, rfl⟩
    · rw [if_neg hc] at h
      exact absurd rfl h

/-- Helper: if the `'ai-2'` check changed the second slot, it marked it
received and resolved it as a success. -/
theorem resolveSlot2_changed (agents : List AgentDescriptor)
    (resps : List (String × String)) (metas : List (String × ResponseMetadata))
    (s : JobState)
    (h : (resolveSlot2 agents resps metas s).slot2 ≠ s.slot2) :
    (resolveSlot2 agents resps metas s).received2 = true
    ∧ ∃ c m, (resolveSlot2 agents resps metas s).slot2 = .Success c m := by
  unfold resolveSlot2 at h ⊢
  cases hA : agents[1]? with
  | none =>
    rw [hA] at h
    exact absurd rfl h
  | some a =>
    rw [hA] at h
    dsimp only at h ⊢
    by_cases hc : truthyString (resps.lookup a.key) = true ∧ ¬s.received2 = true
    · rw [if_pos hc]
      exact ⟨rfl, _, _, rfl⟩
    · rw [if_neg hc] at h
      exact absurd rfl h

/-- Helper: if processing a payload changed the first slot, the slot was
marked received and resolved as a success. -/
theorem processResponses_changed1 (agents : List AgentDescriptor)
    (st : ChatStatus) (s : JobState)
    (h : (processResponses agents st s).slot1 ≠ s.slot1) :
    (processResponses agents st s).received1 = true
    ∧ ∃ c m, (processResponses agents st s).slot1 = .Success c m := by
  unfold processResponses at h ⊢
  cases hr : st.responses with
  | none =>
    rw [hr] at h
    exact absurd rfl h
  | some resps =>
    cases hm : st.metadata with
    | none =>
      rw [hr, hm] at h
      exact absurd rfl h
    | some metas =>
      rw [hr, hm] at h
      dsimp only at h ⊢
      obtain ⟨p1, p2, p3⟩ :=
        resolveSlot2_preserves1 agents resps metas (resolveSlot1 agents resps metas s)
      rw [p2] at h ⊢
      rw [p1]
      exact resolveSlot1_changed agents resps metas s h

/-- Helper: if processing a payload changed the second slot, the slot was
marked received and resolved as a success. -/
theorem processResponses_changed2 (agents : List AgentDescriptor)
    (st : ChatStatus) (s : JobState)
    (h : (processResponses agents st s).slot2 ≠ s.slot2) :
    (processResponses agents st s).received2 = true
    ∧ ∃ c m, (processResponses agents st s).slot2 = .Success c m := by
  unfold processResponses at h ⊢
  cases hr : st.responses with
  | none =>
    rw [hr] at h
    exact absurd rfl h
  | some resps =>
    cases hm : st.metadata with
    | none =>
      rw [hr, hm] at h
      exact absurd rfl h
    | some metas =>
      rw [hr, hm] at h
      dsimp only at h ⊢
      obtain ⟨q1, q2, q3⟩ := resolveSlot1_preserves2 agents resps metas s
      rw [← q2] at h
      exact resolveSlot2_changed agents resps metas _ h

/-- C3: slot resolution is idempotent and happens at most once.  A slot in
`responsesReceived` is never altered by any later poll result or poll error
(outcome, indicator, and membership are preserved by the whole remaining
loop); a poll result changes a slot only by resolving it to `Success` while
simultaneously adding it to `responsesReceived`; and whenever another poll
is scheduled the state carries only those `processResponses` updates, so a
`Failed` resolution (timeout or error path) is never followed by a later
poll of the same job. -/
theorem pollLoop_slot_idempotent (agents : List AgentDescriptor)
    (events : List PollEvent) (s : JobState) :
    (s.received1 = true →
      (runPollLoop agents events s).received1 = true
      ∧ (runPollLoop agents events s).slot1 = s.slot1
      ∧ (runPollLoop agents events s).status1 = s.status1)
    ∧ (s.received2 = true →
      (runPollLoop agents events s).received2 = true
      ∧ (runPollLoop agents events s).slot2 = s.slot2
      ∧ (runPollLoop agents events s).status2 = s.status2)
    ∧ (∀ st : ChatStatus,
        ((processResponses agents st s).slot1 ≠ s.slot1 →
          (processResponses agents st s).received1 = true
          ∧ ∃ c m, (processResponses agents st s).slot1 = .Success c m)
        ∧ ((processResponses agents st s).slot2 ≠ s.slot2 →
          (processResponses agents st s).received2 = true
          ∧ ∃ c m, (processResponses agents st s).slot2 = .Success c m))
    ∧ (∀ (st : ChatStatus) (elapsedMs : Nat),
        (pollForResponses agents st elapsedMs s).2 = .scheduleNext pollInterval →
        (pollForResponses agents st elapsedMs s).1 = processResponses agents st s) := by
  refine ⟨runPollLoop_of_received1 agents events s, runPollLoop_of_received2 agents events s,
    fun st => ⟨processResponses_changed1 agents st s, processResponses_changed2 agents st s⟩,
    ?_⟩
  intro st elapsedMs hsched
  unfold pollForResponses at hsched ⊢
  dsimp only at hsched ⊢
  by_cases hc : receivedCount (processResponses agents st s) < 2 ∧ st.status ≠ "completed"
      ∧ elapsedMs < maxWaitTime
  · rw [if_pos hc]
  · rw [if_neg hc] at hsched
    split at hsched <;> simp at hsched

/-- C3 witness: a slot already resolved (received) with `Success "hi"` is
unchanged by a later poll result that still contains a response for the
same agent key. -/
theorem pollLoop_slot_idempotent_witness :
    (runPollLoop sampleAgents
        [.result ⟨"processing", some [("gpt", "again")], some []⟩ 100]
        ⟨true, false, .Success "hi" none, .Pending, .ready, .processing⟩).slot1 =
      .Success "hi" none :=
  ((pollLoop_slot_idempotent sampleAgents
      [.result ⟨"processing", some [("gpt", "again")], some []⟩ 100]
      ⟨true, false, .Success "hi" none, .Pending, .ready, .processing⟩).1 rfl).2.1

/-- C5: after a successful poll, another poll is scheduled if and only if
fewer than two slots are resolved after this payload's updates AND the
reported job status is not `'completed'` AND the elapsed time is under the
60000 ms budget; the scheduled delay is always the fixed 200 ms
`pollInterval` — no backoff. -/
theorem pollForResponses_schedule_iff (agents : List AgentDescriptor)
    (st : ChatStatus) (elapsedMs : Nat) (s : JobState) :
    ((pollForResponses agents st elapsedMs s).2 = .scheduleNext pollInterval ↔
      (receivedCount (processResponses agents st s) < 2 ∧ st.status ≠ "completed"
        ∧ elapsedMs < maxWaitTime))
    ∧ (∀ d, (pollForResponses agents st elapsedMs s).2 = .scheduleNext d → d = 200)
    ∧ pollInterval = 200 ∧ maxWaitTime = 60000 := by
  unfold pollForResponses
  dsimp only
  by_cases hc : receivedCount (processResponses agents st s) < 2 ∧ st.status ≠ "completed"
      ∧ elapsedMs < maxWaitTime
  · rw [if_pos hc]
    refine ⟨⟨fun _ => hc, fun _ => rfl⟩, ?_, rfl, rfl⟩
    intro d hd
    cases hd
    rfl
  · rw [if_neg hc]
    refine ⟨⟨fun hsched => ?_, fun hcc => absurd hcc hc⟩, fun d hd => ?_, rfl, rfl⟩
    · split at hsched <;> simp at hsched
    · split at hd <;> simp at hd

/-- C5 witness: a non-completed first poll schedules the next poll at the
200 ms interval, while a completed status does not. -/
theorem pollForResponses_schedule_iff_witness :
    (pollForResponses sampleAgents ⟨"processing", none, none⟩ 0 initialJobState).2 =
      .scheduleNext pollInterval
    ∧ (pollForResponses sampleAgents ⟨"completed", none, none⟩ 0 initialJobState).2 ≠
      .scheduleNext pollInterval := by
  constructor
  · exact (pollForResponses_schedule_iff sampleAgents ⟨"processing", none, none⟩ 0
      initialJobState).1.mpr ⟨by decide, by decide, by decide⟩
  · intro hs
    have hcond := (pollForResponses_schedule_iff sampleAgents ⟨"completed", none, none⟩ 0
      initialJobState).1.mp hs
    exact hcond.2.1 rfl

/-- C2: when the poll loop stops with a slot unresolved — the reported
status is `'completed'` or the 60000 ms budget has elapsed, while fewer
than two slots are received — each unresolved slot is resolved as `Failed`
with reason `'Request timeout'` and the fixed metadata
`processing_time_seconds = 30, cost_usd = 0, error = true`, and that
agent's status indicator is set to error. -/
theorem pollForResponses_timeout_failure (agents : List AgentDescriptor)
    (st : ChatStatus) (elapsedMs : Nat) (s : JobState)
    (hstop : st.status = "completed" ∨ maxWaitTime ≤ elapsedMs)
    (hun : receivedCount (processResponses agents st s) < 2) :
    (pollForResponses agents st elapsedMs s).2 = .stop
    ∧ ((processResponses agents st s).received1 = false →
        (pollForResponses agents st elapsedMs s).1.slot1 =
          .Failed "Request timeout"
            { display_name := none, processing_time_seconds := 30, cost_usd := 0, error := true }
        ∧ (pollForResponses agents st elapsedMs s).1.status1 = .error)
    ∧ ((processResponses agents st s).received2 = false →
        (pollForResponses agents st elapsedMs s).1.slot2 =
          .Failed "Request timeout"
            { display_name := none, processing_time_seconds := 30, cost_usd := 0, error := true }
        ∧ (pollForResponses agents st elapsedMs s).1.status2 = .error) := by
  have hnc : ¬(receivedCount (processResponses agents st s) < 2 ∧ st.status ≠ "completed"
      ∧ elapsedMs < maxWaitTime) := by
    rintro ⟨-, hs2, he⟩
    rcases hstop with hcmp | hbudget
    · exact hs2 hcmp
    · omega
  unfold pollForResponses
  dsimp only
  rw [if_neg hnc, if_pos hun]
  exact ⟨rfl, fun h1 => pollTimeoutResolve_slot1_failed _ h1,
    fun h2 => pollTimeoutResolve_slot2_failed _ h2⟩

/-- C2 witness: with the 60 s budget elapsed and no responses, both slots
resolve as the fixed timeout failure and the loop stops. -/
theorem pollForResponses_timeout_failure_witness :
    (pollForResponses sampleAgents ⟨"processing", none, none⟩ 60000 initialJobState).1.slot1 =
      .Failed "Request timeout" timeoutMetadata
    ∧ (pollForResponses sampleAgents ⟨"processing", none, none⟩ 60000 initialJobState).1.slot2 =
      .Failed "Request timeout" timeoutMetadata
    ∧ (pollForResponses sampleAgents ⟨"processing", none, none⟩ 60000 initialJobState).1.status1 =
      .error
    ∧ (pollForResponses sampleAgents ⟨"processing", none, none⟩ 60000 initialJobState).2 =
      .stop := by
  have h := pollForResponses_timeout_failure sampleAgents ⟨"processing", none, none⟩ 60000
    initialJobState (Or.inr (by decide)) (by decide)
  exact ⟨(h.2.1 (by decide)).1, (h.2.2 (by decide)).1, (h.2.1 (by decide)).2, h.1⟩

/-- C4: when the `startChatMessage` call itself is rejected, the job ends
immediately: both placeholder slots become `Failed` outcomes carrying
`` `Error: ${message}` `` with metadata `processing_time_seconds = 0,
cost_usd = 0, error = true`, both status indicators become error, the job
is `done` so no poll event ever touches it (no poll loop is started), and
`isProcessing` is cleared (the controller returns to idle and re-enables
submission). -/
theorem startRejected_fails_job (agents : List AgentDescriptor)
    (s : ControllerState) (i : Nat) (msg : String) (j : ChatJob)
    (hj : s.jobs[i]? = some j) (hph : j.phase = .awaitingStart) :
    (handleChatEvent agents s (.startRejected i msg)).isProcessing = false
    ∧ (handleChatEvent agents s (.startRejected i msg)).jobs[i]? =
        some { state := startFailedJobState msg, phase := .done }
    ∧ (startFailedJobState msg).slot1 =
        .Failed ("Error: " ++ msg)
          { display_name := none, processing_time_seconds := 0, cost_usd := 0, error := true }
    ∧ (startFailedJobState msg).slot2 =
        .Failed ("Error: " ++ msg)
          { display_name := none, processing_time_seconds := 0, cost_usd := 0, error := true }
    ∧ (startFailedJobState msg).status1 = .error
    ∧ (startFailedJobState msg).status2 = .error
    ∧ (∀ (st : ChatStatus) (elapsedMs : Nat),
        handleChatEvent agents (handleChatEvent agents s (.startRejected i msg))
          (.pollResult i st elapsedMs) =
        handleChatEvent agents s (.startRejected i msg))
    ∧ (∀ m, handleChatEvent agents (handleChatEvent agents s (.startRejected i msg))
          (.pollError i m) =
        handleChatEvent agents s (.startRejected i msg)) := by
  have hlt : i < s.jobs.length := by
    rcases List.getElem?_eq_some.mp hj with ⟨hlt, -⟩
    exact hlt
  have hstep : handleChatEvent agents s (.startRejected i msg) =
      { isProcessing := false
      , jobs := s.jobs.set i { state := startFailedJobState msg, phase := .done } } := by
    unfold handleChatEvent
    dsimp only
    rw [hj]
    dsimp only
    rw [if_pos hph]
  have hget : (s.jobs.set i { state := startFailedJobState msg, phase := .done })[i]? =
      some { state := startFailedJobState msg, phase := .done } :=
    List.getElem?_set_self hlt
  refine ⟨by rw [hstep], by rw [hstep]; exact hget, rfl, rfl, rfl, rfl, ?_, ?_⟩
  · intro st elapsedMs
    rw [hstep]
    unfold handleChatEvent
    dsimp only
    rw [hget]
    dsimp only
    rw [if_neg (by simp)]
  · intro m
    rw [hstep]
    unfold handleChatEvent
    dsimp only
    rw [hget]
    dsimp only
    rw [if_neg (by simp)]

/-- C4 witness: a submit followed by a rejected `startChatMessage` leaves an
idle controller whose single job is done with both slots failed. -/
theorem startRejected_fails_job_witness :
    (handleChatEvent sampleAgents (runChat sampleAgents [.submit "Hello"])
        (.startRejected 0 "Network error")).isProcessing = false
    ∧ (handleChatEvent sampleAgents (runChat sampleAgents [.submit "Hello"])
        (.startRejected 0 "Network error")).jobs[0]? =
        some { state := startFailedJobState "Network error", phase := .done } := by
  have h := startRejected_fails_job sampleAgents (runChat sampleAgents [.submit "Hello"]) 0
    "Network error" ⟨initialJobState, .awaitingStart⟩ (by decide) rfl
  exact ⟨h.1, h.2.1⟩

/-- C1 (as stated, refuted here): the claim requires any further submission
to be rejected until both of the first job's slots are terminal.  In the
code, `sendMessageWithStreaming` resolves as soon as the unawaited
`pollForResponses()` kick-off returns, so `handleMessageSubmit`'s `finally`
clears `isProcessing` while both slots are still `Pending`.  Concretely:
while the start call is pending a second submit is indeed rejected (one
job), but once the start call resolves `isProcessing` is false again, and a
second submit creates a second job while job 0 still has two `Pending`
slots. -/
theorem submit_reenabled_while_job_unresolved :
    (runChat sampleAgents [.submit "Hello", .submit "Again"]).jobs.length = 1
    ∧ (runChat sampleAgents [.submit "Hello", .startResolved 0]).isProcessing = false
    ∧ (runChat sampleAgents [.submit "Hello", .startResolved 0, .submit "Again"]).jobs.length = 2
    ∧ ((runChat sampleAgents [.submit "Hello", .startResolved 0, .submit "Again"]).jobs[0]?.map
        (fun j => j.state.slot1)) = some .Pending
    ∧ ((runChat sampleAgents [.submit "Hello", .startResolved 0, .submit "Again"]).jobs[0]?.map
        (fun j => j.state.slot2)) = some .Pending
    ∧ ((runChat sampleAgents [.submit "Hello", .startResolved 0, .submit "Again"]).jobs[1]?.map
        (fun j => j.phase)) = some .awaitingStart := by decide
